import Mathlib

/-!
Verification development for the blazeremap input-remapping core.

The definitions below are a shallow embedding of the Rust sources:
  - `src/event/input/types.rs` - input event model, button/axis codes,
    the deadzone predicate, and the string resolvers;
  - `src/mapping/engine.rs`    - the stateful mapping engine;
  - `src/mapping/rules.rs`     - mapping rules;
  - `src/mapping/profile.rs`   - profiles;
  - `src/event/time.rs`        - the wall-clock/monotonic time anchor;
  - `src/event/handler.rs`     - the event loop.

Machine integers (`i32`) are modelled as `Int` (none of the verified paths
perform arithmetic that can overflow on the values the claims quantify over),
hash maps as functions into `Option`, `Instant`/`SystemTime` as nanosecond
counts in `Int`, and `anyhow::Result` as `Except String`.  A handful of
definitions correspond to code of the repository that is referenced but not
present under `src/` (the `mapping/types.rs` module and the keyboard output
types); those carry a doc comment starting `Modelled from the spec:`.
-/

namespace Blazeremap

/-- Platform-agnostic gamepad button codes, from `src/event/input/types.rs`. -/
inductive ButtonCode
  | south | east | north | west
  | leftShoulder | rightShoulder
  | leftTrigger | rightTrigger
  | select | start
  | leftStick | rightStick
  | mode | misc1
  | paddle1 | paddle2 | paddle3 | paddle4
  | touchpad
  | unknown
  deriving DecidableEq

/-- Platform-agnostic gamepad axis codes, from `src/event/input/types.rs`. -/
inductive AxisCode
  | leftX | leftY | rightX | rightY
  | leftTrigger | rightTrigger
  | dPadX | dPadY
  | unknown
  deriving DecidableEq

/-- Axis direction relative to the neutral value, from `src/event/input/types.rs`. -/
inductive AxisDirection
  | positive
  | negative
  deriving DecidableEq

/-- Modelled from the spec: the keyboard key codes (`KeyboardCode` lives in the
output types module that is not under `src/`).  The variants are the ones the
sources use: the default profile and hardcoded engine targets plus the keys
named in the tests. -/
inductive KeyboardCode
  | w | a | s | d | e
  | space | escape | enter
  | up | down | left | right
  deriving DecidableEq

/-- Modelled from the spec: output event type `Press | Release` (the
`KeyboardEventType` enum lives in the output types module that is not under
`src/`). -/
inductive KeyboardEventType
  | press
  | release
  deriving DecidableEq

/-- Input events, from `src/event/input/types.rs`.  Timestamps (Rust
`Instant`) are nanosecond counts in `Int`. -/
inductive InputEvent
  | button (code : ButtonCode) (pressed : Bool) (timestamp : Int)
  | axis (code : AxisCode) (value : Int) (timestamp : Int)
  | sync (timestamp : Int)
  deriving DecidableEq

/-- Two's-complement wrap of an integer into the `i32` range: the
release-build result of an overflowing `i32` operation. -/
def wrap32 (x : Int) : Int := (x + 2147483648) % 4294967296 - 2147483648

/-- `i32::abs` with release-build (wrapping) overflow semantics: negating a
negative value and wrapping back into the `i32` range, so `abs` of the
minimal `i32` is itself (still negative). -/
def abs32 (x : Int) : Int := if x < 0 then wrap32 (-x) else x

/-- `InputEvent::is_in_deadzone` from `src/event/input/types.rs`: only `Axis`
variants can be in the deadzone, trigger axes never are, and otherwise the
value is in the deadzone when `(value - 128).abs() <= 10` computed in `i32`.
The subtraction and the `abs` are modelled with two's-complement wrapping
(release-build overflow semantics): at `value = -2147483520` the subtraction
yields the minimal `i32`, whose `abs` wraps to itself and so compares
`<= 10` (a debug build panics there instead). -/
def InputEvent.is_in_deadzone : InputEvent → Bool
  | InputEvent.axis code value _ =>
      if code = AxisCode.leftTrigger ∨ code = AxisCode.rightTrigger then
        false
      else
        decide (abs32 (wrap32 (value - 128)) ≤ (10 : Int))
  | _ => false

/-- Output events, from `src/output/event.rs`. -/
inductive OutputEvent
  | keyboard (code : KeyboardCode) (event_type : KeyboardEventType)
  deriving DecidableEq

/-- Mapping rules, from `src/mapping/rules.rs`. -/
inductive MappingRule
  | buttonToKey (source : ButtonCode) (target : KeyboardCode)
  | axisDirectionToKey (source : AxisCode) (direction : AxisDirection)
      (target : KeyboardCode)
  deriving DecidableEq

/-- The mapping engine state, from `src/mapping/engine.rs`.  The three Rust
`HashMap`s are modelled as functions into `Option`. -/
structure MappingEngine where
  button_rules : ButtonCode → Option KeyboardCode
  axis_rules : AxisCode × AxisDirection → Option KeyboardCode
  axis_states : AxisCode → Option Int

/-- `MappingEngine::value_to_direction` from `src/mapping/engine.rs`. -/
def MappingEngine.value_to_direction (value : Int) : Option AxisDirection :=
  let THRESHOLD : Int := 0
  if value > THRESHOLD then
    some AxisDirection.positive
  else if value < -THRESHOLD then
    some AxisDirection.negative
  else
    none

/-- `MappingEngine::process_button` from `src/mapping/engine.rs` (it takes
`&self` and cannot err, so it is modelled as a pure function to the event
list). -/
def MappingEngine.process_button (eng : MappingEngine) (code : ButtonCode)
    (pressed : Bool) : List OutputEvent :=
  match eng.button_rules code with
  | some target_key =>
      [OutputEvent.keyboard target_key
        (if pressed then KeyboardEventType.press else KeyboardEventType.release)]
  | none => []

/-- `MappingEngine::process_axis` from `src/mapping/engine.rs`: non-D-pad axes
emit nothing and leave the state alone; for D-pad axes the new value is stored
unconditionally and press/release events are generated from the direction
change.  The two `events.push` blocks of the source become the two appended
lists. -/
def MappingEngine.process_axis (eng : MappingEngine) (code : AxisCode)
    (new_value : Int) : List OutputEvent × MappingEngine :=
  if ¬ (code = AxisCode.dPadX ∨ code = AxisCode.dPadY) then
    ([], eng)
  else
    let old_value : Int := (eng.axis_states code).getD 0
    let eng' : MappingEngine :=
      { eng with
        axis_states := fun c => if c = code then some new_value else eng.axis_states c }
    let old_direction := MappingEngine.value_to_direction old_value
    let new_direction := MappingEngine.value_to_direction new_value
    let release_events : List OutputEvent :=
      match old_direction with
      | some old_dir =>
          if old_direction ≠ new_direction then
            match eng.axis_rules (code, old_dir) with
            | some target_key =>
                [OutputEvent.keyboard target_key KeyboardEventType.release]
            | none => []
          else []
      | none => []
    let press_events : List OutputEvent :=
      match new_direction with
      | some new_dir =>
          if old_direction ≠ new_direction then
            match eng.axis_rules (code, new_dir) with
            | some target_key =>
                [OutputEvent.keyboard target_key KeyboardEventType.press]
            | none => []
          else []
      | none => []
    (release_events ++ press_events, eng')

/-- `MappingEngine::process` from `src/mapping/engine.rs`; `&mut self` becomes
explicit state passing, and since no branch can err the `Result` wrapper is
dropped. -/
def MappingEngine.process (eng : MappingEngine) (event : InputEvent) :
    List OutputEvent × MappingEngine :=
  match event with
  | InputEvent.button code pressed _ => (eng.process_button code pressed, eng)
  | InputEvent.axis code value _ => eng.process_axis code value
  | InputEvent.sync _ => ([], eng)

/-- `MappingEngine::new_hardcoded` from `src/mapping/engine.rs`. -/
def MappingEngine.new_hardcoded : MappingEngine where
  button_rules := fun c =>
    if c = ButtonCode.south then some KeyboardCode.s
    else if c = ButtonCode.east then some KeyboardCode.d
    else if c = ButtonCode.west then some KeyboardCode.a
    else none
  axis_rules := fun p =>
    if p = (AxisCode.dPadY, AxisDirection.negative) then some KeyboardCode.up
    else if p = (AxisCode.dPadY, AxisDirection.positive) then some KeyboardCode.down
    else if p = (AxisCode.dPadX, AxisDirection.negative) then some KeyboardCode.left
    else if p = (AxisCode.dPadX, AxisDirection.positive) then some KeyboardCode.right
    else none
  axis_states := fun _ => none

/-- Modelled from the spec: target type of a mapping entry (`TargetType` lives
in `src/mapping/types.rs`, which is not under `src/`; the serialized forms the
spec names are keyboard, mouse and gamepad). -/
inductive TargetType
  | keyboard
  | mouse
  | gamepad
  deriving DecidableEq

/-- A profile mapping entry, from `src/mapping/mod.rs`. -/
structure Mapping where
  source_name : String
  source_direction : Option String
  target_type : TargetType
  target_name : String
  deriving DecidableEq

/-- Profile settings, from `src/mapping/profile.rs`. -/
structure ProfileSettings where
  vibration_enabled : Bool
  vibration_intensity : Nat
  deriving DecidableEq

/-- A controller profile, from `src/mapping/profile.rs`. -/
structure Profile where
  name : String
  description : String
  game_name : Option String
  mappings : List Mapping
  settings : ProfileSettings
  deriving DecidableEq

/-- `impl From<&str> for ButtonCode` from `src/event/input/types.rs`:
unrecognized names resolve to `ButtonCode::Unknown`. -/
def buttonCodeFromStr (s : String) : ButtonCode :=
  match s with
  | "South" => ButtonCode.south
  | "East" => ButtonCode.east
  | "North" => ButtonCode.north
  | "West" => ButtonCode.west
  | "Left Shoulder" | "LeftShoulder" => ButtonCode.leftShoulder
  | "Right Shoulder" | "RightShoulder" => ButtonCode.rightShoulder
  | "Left Trigger" | "LeftTrigger" => ButtonCode.leftTrigger
  | "Right Trigger" | "RightTrigger" => ButtonCode.rightTrigger
  | "Select" => ButtonCode.select
  | "Start" => ButtonCode.start
  | "Left Stick" | "LeftStick" => ButtonCode.leftStick
  | "Right Stick" | "RightStick" => ButtonCode.rightStick
  | "Mode" => ButtonCode.mode
  | "Misc" | "Misc1" => ButtonCode.misc1
  | "Paddle 1" | "Paddle1" => ButtonCode.paddle1
  | "Paddle 2" | "Paddle2" => ButtonCode.paddle2
  | "Paddle 3" | "Paddle3" => ButtonCode.paddle3
  | "Paddle 4" | "Paddle4" => ButtonCode.paddle4
  | "Touchpad" => ButtonCode.touchpad
  | _ => ButtonCode.unknown

/-- `impl From<&str> for AxisCode` from `src/event/input/types.rs`:
unrecognized names resolve to `AxisCode::Unknown`. -/
def axisCodeFromStr (s : String) : AxisCode :=
  match s with
  | "LeftX" | "Left X" => AxisCode.leftX
  | "LeftY" | "Left Y" => AxisCode.leftY
  | "RightX" | "Right X" => AxisCode.rightX
  | "RightY" | "Right Y" => AxisCode.rightY
  | "LeftTrigger" | "Left Trigger" => AxisCode.leftTrigger
  | "RightTrigger" | "Right Trigger" => AxisCode.rightTrigger
  | "DPadX" | "DPad X" => AxisCode.dPadX
  | "DPadY" | "DPad Y" => AxisCode.dPadY
  | _ => AxisCode.unknown

/-- Modelled from the spec: resolution of a direction name (the resolver lives
in the `mapping/types.rs` module that is not under `src/`).  The serialized
direction names, per the `Display` impl of `AxisDirection` and the default
profile, are exactly `Positive` and `Negative`; per the spec an unresolvable
name is a construction-time error, so resolution is partial. -/
def axisDirectionFromStr (s : String) : Option AxisDirection :=
  if s = "Positive" then some AxisDirection.positive
  else if s = "Negative" then some AxisDirection.negative
  else none

/-- Modelled from the spec: resolution of a target key name (the resolver and
`KeyboardCode` itself live in modules not under `src/`).  The names are the
serialized forms the sources use; per the spec an unresolvable target name is
a construction-time error, so resolution is partial. -/
def keyboardCodeFromStr (s : String) : Option KeyboardCode :=
  match s with
  | "W" => some KeyboardCode.w
  | "A" => some KeyboardCode.a
  | "S" => some KeyboardCode.s
  | "D" => some KeyboardCode.d
  | "E" => some KeyboardCode.e
  | "Space" => some KeyboardCode.space
  | "Escape" => some KeyboardCode.escape
  | "Enter" => some KeyboardCode.enter
  | "Up" => some KeyboardCode.up
  | "Down" => some KeyboardCode.down
  | "Left" => some KeyboardCode.left
  | "Right" => some KeyboardCode.right
  | _ => none

/-- Modelled from the spec: `impl TryFrom<&Mapping> for MappingRule` (it lives
in the `mapping/types.rs` module that is not under `src/`).  Per the spec,
string names of a profile entry are resolved to the internal enumerations and
an unresolvable source, direction or target name is a mapping-definition
error; an entry with a `source_direction` denotes an axis-direction rule and
one without denotes a button rule. -/
def MappingRule.tryFrom (m : Mapping) : Except String MappingRule :=
  match m.source_direction with
  | some dir_name =>
      match axisCodeFromStr m.source_name with
      | AxisCode.unknown => Except.error ("unknown axis: " ++ m.source_name)
      | ax =>
          match axisDirectionFromStr dir_name with
          | none => Except.error ("unknown direction: " ++ dir_name)
          | some dir =>
              match keyboardCodeFromStr m.target_name with
              | none => Except.error ("unknown target: " ++ m.target_name)
              | some key => Except.ok (MappingRule.axisDirectionToKey ax dir key)
  | none =>
      match buttonCodeFromStr m.source_name with
      | ButtonCode.unknown => Except.error ("unknown button: " ++ m.source_name)
      | b =>
          match keyboardCodeFromStr m.target_name with
          | none => Except.error ("unknown target: " ++ m.target_name)
          | some key => Except.ok (MappingRule.buttonToKey b key)

/-- The rule-insertion loop of `MappingEngine::load_from_profile` from
`src/mapping/engine.rs`: each entry is converted with
`MappingRule::try_from`, the first failure aborts construction (the `?`
operator), and successes are inserted into the two rule maps. -/
def loadRules (ms : List Mapping)
    (button_rules : ButtonCode → Option KeyboardCode)
    (axis_rules : AxisCode × AxisDirection → Option KeyboardCode) :
    Except String
      ((ButtonCode → Option KeyboardCode) ×
        (AxisCode × AxisDirection → Option KeyboardCode)) :=
  match ms with
  | [] => Except.ok (button_rules, axis_rules)
  | m :: rest =>
      match MappingRule.tryFrom m with
      | Except.error e => Except.error e
      | Except.ok (MappingRule.buttonToKey source target) =>
          loadRules rest
            (fun c => if c = source then some target else button_rules c)
            axis_rules
      | Except.ok (MappingRule.axisDirectionToKey source direction target) =>
          loadRules rest button_rules
            (fun p => if p = (source, direction) then some target else axis_rules p)

/-- `MappingEngine::load_from_profile` from `src/mapping/engine.rs`. -/
def MappingEngine.load_from_profile (profile : Profile) :
    Except String MappingEngine :=
  match loadRules profile.mappings (fun _ => none) (fun _ => none) with
  | Except.error e => Except.error e
  | Except.ok (button_rules, axis_rules) =>
      Except.ok
        { button_rules := button_rules
          axis_rules := axis_rules
          axis_states := fun _ => none }

/-- The time anchor, from `src/event/time.rs`.  `SystemTime` (wall clock) and
`Instant` (monotonic clock) values are modelled as nanosecond counts in
`Int`. -/
structure TimeAnchor where
  system_time : Int
  instant : Int
  deriving DecidableEq

/-- `SystemTime::duration_since` as used by `TimeAnchor::to_instant`: `Ok`
with the nonnegative delta when the argument is at or after the reference,
`Err` carrying the positive gap when it precedes it. -/
def durationSince (t reference : Int) : Except Int Int :=
  if reference ≤ t then Except.ok (t - reference)
  else Except.error (reference - t)

/-- `TimeAnchor::to_instant` from `src/event/time.rs`: advance the monotonic
reference by the delta on `Ok`, move it back by the carried gap on `Err`. -/
def TimeAnchor.to_instant (anchor : TimeAnchor) (system_time : Int) : Int :=
  match durationSince system_time anchor.system_time with
  | Except.ok duration => anchor.instant + duration
  | Except.error gap => anchor.instant - gap

/-- Outcome of a finite-trace run of the event loop (`EventLoop::run` from
`src/event/handler.rs`).  `ranOut` marks exhaustion of the modelled trace
while the loop is still running (the real loop would block on the source). -/
inductive LoopOutcome
  | disconnected
  | sourceError
  | sinkError
  | ranOut
  deriving DecidableEq

/-- `EventLoop::run` from `src/event/handler.rs` over a finite trace of source
reads.  A trace item `none` is a source read error (`read_event` returned
`Err`), `some none` is a graceful disconnect (`Ok(None)`), and
`some (some ev)` is a delivered event (`Ok(Some(ev))`).  `emitOk` tells
whether the keyboard sink accepts a given output event; events are emitted in
order and the first failed emission aborts the run (the `?` operator inside
the `for` loop).  The latency statistics of the source are observational only
and are not modelled. -/
def EventLoop.run (eng : MappingEngine)
    (reads : List (Option (Option InputEvent)))
    (emitOk : OutputEvent → Bool) : LoopOutcome :=
  match reads with
  | [] => LoopOutcome.ranOut
  | none :: _ => LoopOutcome.sourceError
  | some none :: _ => LoopOutcome.disconnected
  | some (some ev) :: rest =>
      let step := eng.process ev
      if step.1.all emitOk then EventLoop.run step.2 rest emitOk
      else LoopOutcome.sinkError

/-- The list of output events `process_axis` emits on a D-pad axis, as a
function of the old and new directions and the axis rule map; factored out of
`MappingEngine.process_axis` for the proofs below. -/
def dpadDelta (axis_rules : AxisCode × AxisDirection → Option KeyboardCode)
    (code : AxisCode) (old_direction new_direction : Option AxisDirection) :
    List OutputEvent :=
  (match old_direction with
   | some old_dir =>
       if old_direction ≠ new_direction then
         match axis_rules (code, old_dir) with
         | some target_key =>
             [OutputEvent.keyboard target_key KeyboardEventType.release]
         | none => []
       else []
   | none => []) ++
  (match new_direction with
   | some new_dir =>
       if old_direction ≠ new_direction then
         match axis_rules (code, new_dir) with
         | some target_key =>
             [OutputEvent.keyboard target_key KeyboardEventType.press]
         | none => []
       else []
   | none => [])

/-- Modelled from the spec: the direction classification stated in the data
model section, `value > 0 → Positive, value < 0 → Negative, value == 0 →
neutral`; compared against the source's `value_to_direction` below. -/
def directionOfSpec (value : Int) : Option AxisDirection :=
  if value > 0 then some AxisDirection.positive
  else if value < 0 then some AxisDirection.negative
  else none

/-- The invalid profile of `test_load_from_invalid_profile` in
`src/mapping/engine.rs`: one D-pad entry with the unresolvable direction name
`Invalid`. -/
def invalidProfile : Profile where
  name := "Invalid"
  description := "Invalid profile"
  game_name := none
  mappings :=
    [{ source_name := "DPadX"
       source_direction := some "Invalid"
       target_type := TargetType.keyboard
       target_name := "A" }]
  settings := { vibration_enabled := true, vibration_intensity := 100 }

/-! ## Helper lemmas -/

/-- On a D-pad axis, `process` returns exactly the direction-change delta and
the state with the new value stored. -/
theorem process_dpad_eq (eng : MappingEngine) (code : AxisCode) (v t : Int)
    (hc : code = AxisCode.dPadX ∨ code = AxisCode.dPadY) :
    eng.process (InputEvent.axis code v t) =
      (dpadDelta eng.axis_rules code
        (MappingEngine.value_to_direction ((eng.axis_states code).getD 0))
        (MappingEngine.value_to_direction v),
       { eng with
         axis_states := fun c => if c = code then some v else eng.axis_states c }) := by
  rcases hc with h | h <;> subst h <;>
    simp [MappingEngine.process, MappingEngine.process_axis, dpadDelta]

/-- No direction change emits no events. -/
theorem dpadDelta_self (ar : AxisCode × AxisDirection → Option KeyboardCode)
    (code : AxisCode) (d : Option AxisDirection) : dpadDelta ar code d d = [] := by
  cases d <;> simp [dpadDelta]

/-- On a direction change into a mapped direction, the press event for the new
direction is emitted. -/
theorem dpadDelta_press_mem (ar : AxisCode × AxisDirection → Option KeyboardCode)
    (code : AxisCode) (od nd : Option AxisDirection) (d : AxisDirection)
    (k : KeyboardCode) (hne : od ≠ nd) (hd : nd = some d)
    (hk : ar (code, d) = some k) :
    OutputEvent.keyboard k KeyboardEventType.press ∈ dpadDelta ar code od nd := by
  subst hd
  cases od <;> simp_all [dpadDelta]

/-- On a direction change out of a mapped direction, the release event for the
old direction is emitted. -/
theorem dpadDelta_release_mem (ar : AxisCode × AxisDirection → Option KeyboardCode)
    (code : AxisCode) (od nd : Option AxisDirection) (d : AxisDirection)
    (k : KeyboardCode) (hne : od ≠ nd) (hd : od = some d)
    (hk : ar (code, d) = some k) :
    OutputEvent.keyboard k KeyboardEventType.release ∈ dpadDelta ar code od nd := by
  subst hd
  cases nd <;> simp_all [dpadDelta]

/-- A flip between two mapped active directions emits exactly the release
followed by the press. -/
theorem dpadDelta_flip (ar : AxisCode × AxisDirection → Option KeyboardCode)
    (code : AxisCode) (dOld dNew : AxisDirection) (kOld kNew : KeyboardCode)
    (hne : (some dOld : Option AxisDirection) ≠ some dNew)
    (hkO : ar (code, dOld) = some kOld) (hkN : ar (code, dNew) = some kNew) :
    dpadDelta ar code (some dOld) (some dNew) =
      [OutputEvent.keyboard kOld KeyboardEventType.release,
       OutputEvent.keyboard kNew KeyboardEventType.press] := by
  simp_all [dpadDelta]

/-- The source's threshold-0 classification agrees with the spec's
classification. -/
theorem value_to_direction_spec (v : Int) :
    MappingEngine.value_to_direction v = directionOfSpec v := by
  simp [MappingEngine.value_to_direction, directionOfSpec]

/-! ## Claims -/

/-- Over in-range `i32` values, the wrapping deadzone distance check holds
exactly at true distance at most 10 or at the abs-overflow point
`-2147483520` (the minimal `i32` plus 128). -/
theorem deadzone_abs_iff (value : Int) (h1 : -2147483648 ≤ value)
    (h2 : value ≤ 2147483647) :
    abs32 (wrap32 (value - 128)) ≤ 10 ↔
      |value - 128| ≤ 10 ∨ value = -2147483520 := by
  rcases abs_cases (value - 128) with ⟨hab, hs⟩ | ⟨hab, hs⟩ <;>
    rw [hab] <;> unfold abs32 wrap32 <;> split_ifs <;> omega

/-- C4 counterexample: at value `-2147483520` (minimal `i32` plus 128) on a
non-trigger axis, the source's `i32` `abs` overflows - wrapping to a
negative value in a release build - so `is_in_deadzone` returns true even
though the distance from center far exceeds 10, refuting the claimed
for-every-value biconditional. -/
theorem c4_deadzone_counterexample :
    (InputEvent.axis AxisCode.leftX (-2147483520) 0).is_in_deadzone = true ∧
    ¬ (|(-2147483520 : Int) - 128| ≤ 10) := by
  constructor
  · decide
  · decide

/-- C4 (amended): for every in-range `i32` axis value, `is_in_deadzone` is
true exactly for non-trigger `Axis` events whose value is within 10
(inclusive) of center 128 or equals the abs-overflow value `-2147483520`
(where the release-build `i32` `abs` wraps negative; a debug build panics);
trigger axes and non-Axis variants always return false. -/
theorem c4_deadzone_amended (e : InputEvent) :
    (∀ code value t, e = InputEvent.axis code value t →
      -2147483648 ≤ value → value ≤ 2147483647 →
      (e.is_in_deadzone = true ↔
        code ≠ AxisCode.leftTrigger ∧ code ≠ AxisCode.rightTrigger ∧
        (|value - 128| ≤ (10 : Int) ∨ value = -2147483520))) ∧
    (∀ code pressed t, e = InputEvent.button code pressed t →
      e.is_in_deadzone = false) ∧
    (∀ t, e = InputEvent.sync t → e.is_in_deadzone = false) := by
  refine ⟨?_, ?_, ?_⟩
  · rintro code value t rfl h1 h2
    by_cases hc : code = AxisCode.leftTrigger ∨ code = AxisCode.rightTrigger
    · rcases hc with h | h <;> subst h <;> simp [InputEvent.is_in_deadzone]
    · push_neg at hc
      simp [InputEvent.is_in_deadzone, hc.1, hc.2,
        deadzone_abs_iff value h1 h2]
  · rintro code pressed t rfl
    rfl
  · rintro t rfl
    rfl

/-- Witness for C4 (amended) at the boundary value 138 on LeftX: the
biconditional instantiates and both sides hold. -/
theorem c4_deadzone_amended_witness :
    (InputEvent.axis AxisCode.leftX 138 0).is_in_deadzone = true ↔
      AxisCode.leftX ≠ AxisCode.leftTrigger ∧
      AxisCode.leftX ≠ AxisCode.rightTrigger ∧
      (|(138 : Int) - 128| ≤ (10 : Int) ∨ (138 : Int) = -2147483520) :=
  (c4_deadzone_amended (InputEvent.axis AxisCode.leftX 138 0)).1
    AxisCode.leftX 138 0 rfl (by decide) (by decide)

/-- C7: the time anchor's conversion is the signed computation
`reference_instant + (t - reference_wall_clock)`: at or after the wall-clock
reference the monotonic reference is advanced by the delta, before it the
result is the reference moved back by the absolute delta, an instant strictly
before the monotonic reference; the conversion is total. -/
theorem c7_to_instant_signed (anchor : TimeAnchor) (t : Int) :
    anchor.to_instant t = anchor.instant + (t - anchor.system_time) ∧
    (anchor.system_time ≤ t → anchor.instant ≤ anchor.to_instant t) ∧
    (t < anchor.system_time →
      anchor.to_instant t = anchor.instant - (anchor.system_time - t) ∧
      anchor.to_instant t < anchor.instant) := by
  by_cases h : anchor.system_time ≤ t
  · simp [TimeAnchor.to_instant, durationSince, h]
    try omega
  · simp [TimeAnchor.to_instant, durationSince, h]
    try omega

/-- Witness for C7 at the concrete anchor (wall-clock 5, monotonic 100) and
the earlier wall-clock timestamp 3. -/
theorem c7_to_instant_signed_witness :
    (3 : Int) < (5 : Int) ∧
    TimeAnchor.to_instant ⟨5, 100⟩ 3 = 100 - (5 - 3) ∧
    TimeAnchor.to_instant ⟨5, 100⟩ 3 < 100 :=
  ⟨by decide, (c7_to_instant_signed ⟨5, 100⟩ 3).2.2 (by decide)⟩

/-- C1: on a D-pad axis event whose direction differs from the stored one,
`process` emits a release for the rule of the old non-neutral direction
whenever it exists, a press for the rule of the new non-neutral direction
whenever it exists, and when both are emitted the list is exactly the release
strictly followed by the press. -/
theorem c1_direction_flip (eng : MappingEngine) (code : AxisCode) (v t : Int)
    (hc : code = AxisCode.dPadX ∨ code = AxisCode.dPadY)
    (hne : MappingEngine.value_to_direction ((eng.axis_states code).getD 0) ≠
      MappingEngine.value_to_direction v) :
    (∀ d k,
        MappingEngine.value_to_direction ((eng.axis_states code).getD 0) = some d →
        eng.axis_rules (code, d) = some k →
        OutputEvent.keyboard k KeyboardEventType.release ∈
          (eng.process (InputEvent.axis code v t)).1) ∧
    (∀ d k,
        MappingEngine.value_to_direction v = some d →
        eng.axis_rules (code, d) = some k →
        OutputEvent.keyboard k KeyboardEventType.press ∈
          (eng.process (InputEvent.axis code v t)).1) ∧
    (∀ dOld kOld dNew kNew,
        MappingEngine.value_to_direction ((eng.axis_states code).getD 0) = some dOld →
        eng.axis_rules (code, dOld) = some kOld →
        MappingEngine.value_to_direction v = some dNew →
        eng.axis_rules (code, dNew) = some kNew →
        (eng.process (InputEvent.axis code v t)).1 =
          [OutputEvent.keyboard kOld KeyboardEventType.release,
           OutputEvent.keyboard kNew KeyboardEventType.press]) := by
  rw [process_dpad_eq eng code v t hc]
  refine ⟨fun d k hd hk => ?_, fun d k hd hk => ?_, fun dOld kOld dNew kNew hdO hkO hdN hkN => ?_⟩
  · exact dpadDelta_release_mem _ _ _ _ _ _ hne hd hk
  · exact dpadDelta_press_mem _ _ _ _ _ _ hne hd hk
  · rw [hdO, hdN]
    rw [hdO, hdN] at hne
    exact dpadDelta_flip _ _ _ _ _ _ hne hkO hkN

/-- Witness for C1: from a held DPadY Negative, the value +1 yields exactly
Release(Up) then Press(Down) on the hardcoded engine. -/
theorem c1_direction_flip_witness :
    ((MappingEngine.new_hardcoded.process (InputEvent.axis AxisCode.dPadY (-1) 0)).2.process
        (InputEvent.axis AxisCode.dPadY 1 0)).1 =
      [OutputEvent.keyboard KeyboardCode.up KeyboardEventType.release,
       OutputEvent.keyboard KeyboardCode.down KeyboardEventType.press] :=
  (c1_direction_flip
      (MappingEngine.new_hardcoded.process (InputEvent.axis AxisCode.dPadY (-1) 0)).2
      AxisCode.dPadY 1 0 (Or.inr rfl) (by decide)).2.2
    AxisDirection.negative KeyboardCode.up AxisDirection.positive KeyboardCode.down
    (by decide) (by decide) (by decide) (by decide)

/-- C2: a D-pad axis event stores the new value unconditionally, the emitted
events are those computed from the previous value defaulted to 0 when no
entry is present, and the direction classification is the fixed threshold-0
rule of the spec. -/
theorem c2_state_update (eng : MappingEngine) (code : AxisCode) (v t : Int)
    (hc : code = AxisCode.dPadX ∨ code = AxisCode.dPadY) :
    ((eng.process (InputEvent.axis code v t)).2.axis_states =
        fun c => if c = code then some v else eng.axis_states c) ∧
    (eng.axis_states code = none →
      (eng.process (InputEvent.axis code v t)).1 =
        ({ eng with axis_states :=
            fun c => if c = code then some 0 else eng.axis_states c }.process
          (InputEvent.axis code v t)).1) ∧
    (∀ w : Int, MappingEngine.value_to_direction w = directionOfSpec w) := by
  refine ⟨?_, fun h0 => ?_, value_to_direction_spec⟩
  · rw [process_dpad_eq eng code v t hc]
  · rw [process_dpad_eq eng code v t hc,
      process_dpad_eq _ code v t hc]
    simp [h0]

/-- Witness for C2 on the hardcoded engine (empty axis state) and DPadY = 1:
the emitted events agree with those from an explicitly stored 0. -/
theorem c2_state_update_witness :
    (MappingEngine.new_hardcoded.process (InputEvent.axis AxisCode.dPadY 1 0)).1 =
      ({ MappingEngine.new_hardcoded with axis_states :=
          fun c => if c = AxisCode.dPadY then some 0
            else MappingEngine.new_hardcoded.axis_states c }.process
        (InputEvent.axis AxisCode.dPadY 1 0)).1 :=
  (c2_state_update MappingEngine.new_hardcoded AxisCode.dPadY 1 0 (Or.inr rfl)).2.1 rfl

/-- C3: D-pad mapping is edge-triggered: an event whose direction equals the
stored one emits nothing, and processing the same axis value twice emits
nothing on the second call. -/
theorem c3_edge_triggered (eng : MappingEngine) (code : AxisCode) (v t u : Int)
    (hc : code = AxisCode.dPadX ∨ code = AxisCode.dPadY) :
    (MappingEngine.value_to_direction ((eng.axis_states code).getD 0) =
        MappingEngine.value_to_direction v →
      (eng.process (InputEvent.axis code v t)).1 = []) ∧
    ((eng.process (InputEvent.axis code v t)).2.process
        (InputEvent.axis code v u)).1 = [] := by
  constructor
  · intro heq
    rw [process_dpad_eq eng code v t hc, heq]
    simp [dpadDelta_self]
  · rw [process_dpad_eq eng code v t hc,
      process_dpad_eq _ code v u hc]
    simp [dpadDelta_self]

/-- Witness for C3: DPadY = -1 twice in a row on the hardcoded engine emits
nothing on the second call. -/
theorem c3_edge_triggered_witness :
    ((MappingEngine.new_hardcoded.process (InputEvent.axis AxisCode.dPadY (-1) 0)).2.process
        (InputEvent.axis AxisCode.dPadY (-1) 1)).1 = [] :=
  (c3_edge_triggered MappingEngine.new_hardcoded AxisCode.dPadY (-1) 0 1 (Or.inr rfl)).2

/-- C5: a button event with a rule yields exactly one keyboard event whose
type mirrors `pressed` and whose code is the rule's target, a button without
a rule yields nothing, and in both cases the engine state is unchanged. -/
theorem c5_button_mapping (eng : MappingEngine) (code : ButtonCode)
    (pressed : Bool) (t : Int) :
    (∀ k, eng.button_rules code = some k →
      eng.process (InputEvent.button code pressed t) =
        ([OutputEvent.keyboard k
            (if pressed then KeyboardEventType.press else KeyboardEventType.release)],
          eng)) ∧
    (eng.button_rules code = none →
      eng.process (InputEvent.button code pressed t) = ([], eng)) := by
  constructor
  · intro k hk
    simp [MappingEngine.process, MappingEngine.process_button, hk]
  · intro hk
    simp [MappingEngine.process, MappingEngine.process_button, hk]

/-- Witness for C5: pressing South on the hardcoded engine yields exactly
Press(S) and leaves the engine unchanged. -/
theorem c5_button_mapping_witness :
    MappingEngine.new_hardcoded.process (InputEvent.button ButtonCode.south true 0) =
      ([OutputEvent.keyboard KeyboardCode.s KeyboardEventType.press],
        MappingEngine.new_hardcoded) := by
  have h :=
    (c5_button_mapping MappingEngine.new_hardcoded ButtonCode.south true 0).1
      KeyboardCode.s rfl
  simpa using h

/-- The rule-insertion loop errors whenever some entry fails to convert. -/
theorem loadRules_error_of_mem (ms : List Mapping) :
    ∀ (button_rules : ButtonCode → Option KeyboardCode)
      (axis_rules : AxisCode × AxisDirection → Option KeyboardCode),
      (∃ m ∈ ms, ∃ e, MappingRule.tryFrom m = Except.error e) →
      ∃ err, loadRules ms button_rules axis_rules = Except.error err := by
  induction ms with
  | nil =>
      intro br ar h
      simp at h
  | cons m rest ih =>
      intro br ar h
      rcases h with ⟨m0, hm0, e, he⟩
      rcases List.mem_cons.mp hm0 with rfl | hm0
      · exact ⟨e, by simp [loadRules, he]⟩
      · cases htf : MappingRule.tryFrom m with
        | error e1 => exact ⟨e1, by simp [loadRules, htf]⟩
        | ok r =>
            cases r with
            | buttonToKey source target =>
                obtain ⟨err, h2⟩ := ih
                  (fun c => if c = source then some target else br c) ar
                  ⟨m0, hm0, e, he⟩
                refine ⟨err, ?_⟩
                rw [loadRules, htf]
                exact h2
            | axisDirectionToKey source direction target =>
                obtain ⟨err, h2⟩ := ih br
                  (fun p => if p = (source, direction) then some target else ar p)
                  ⟨m0, hm0, e, he⟩
                refine ⟨err, ?_⟩
                rw [loadRules, htf]
                exact h2

/-- C6: if any profile entry has an unresolvable source button, axis,
direction or target name (its conversion to a `MappingRule` errs), engine
construction from the profile reports a mapping-definition error to the
caller; the entry is neither dropped nor defaulted. -/
theorem c6_unresolvable_name (profile : Profile) (m : Mapping) (e : String)
    (hm : m ∈ profile.mappings) (he : MappingRule.tryFrom m = Except.error e) :
    ∃ err, MappingEngine.load_from_profile profile = Except.error err := by
  obtain ⟨err, h⟩ :=
    loadRules_error_of_mem profile.mappings (fun _ => none) (fun _ => none)
      ⟨m, hm, e, he⟩
  exact ⟨err, by simp [MappingEngine.load_from_profile, h]⟩

/-- Witness for C6 on the invalid profile of the sources' own test (direction
name `Invalid`): construction fails. -/
theorem c6_unresolvable_name_witness :
    ∃ err, MappingEngine.load_from_profile invalidProfile = Except.error err :=
  c6_unresolvable_name invalidProfile
    { source_name := "DPadX"
      source_direction := some "Invalid"
      target_type := TargetType.keyboard
      target_name := "A" }
    "unknown direction: Invalid" (by decide) rfl

/-- C8: the event loop aborts immediately with an error on a source read
error or on a failed sink emission - in both cases independently of the rest
of the trace, so no retry and no further processing happens - terminates
normally on a source disconnect, and terminates normally only when the
source reported a disconnect. -/
theorem c8_loop_termination :
    (∀ (eng : MappingEngine) (rest : List (Option (Option InputEvent)))
        (emitOk : OutputEvent → Bool),
        EventLoop.run eng (none :: rest) emitOk = LoopOutcome.sourceError) ∧
    (∀ (eng : MappingEngine) (rest : List (Option (Option InputEvent)))
        (emitOk : OutputEvent → Bool),
        EventLoop.run eng (some none :: rest) emitOk = LoopOutcome.disconnected) ∧
    (∀ (eng : MappingEngine) (ev : InputEvent)
        (rest : List (Option (Option InputEvent))) (emitOk : OutputEvent → Bool),
        (eng.process ev).1.all emitOk = false →
        EventLoop.run eng (some (some ev) :: rest) emitOk = LoopOutcome.sinkError) ∧
    (∀ (eng : MappingEngine) (reads : List (Option (Option InputEvent)))
        (emitOk : OutputEvent → Bool),
        EventLoop.run eng reads emitOk = LoopOutcome.disconnected →
        some none ∈ reads) := by
  refine ⟨fun eng rest emitOk => rfl, fun eng rest emitOk => rfl,
    fun eng ev rest emitOk h => ?_, fun eng reads emitOk => ?_⟩
  · simp [EventLoop.run, h]
  · induction reads generalizing eng with
    | nil =>
        intro h
        simp [EventLoop.run] at h
    | cons r rest ih =>
        intro h
        match r with
        | none => simp [EventLoop.run] at h
        | some none => exact List.mem_cons_self _ _
        | some (some ev) =>
            by_cases hall : (eng.process ev).1.all emitOk
            · rw [EventLoop.run] at h
              simp only [hall, if_true] at h
              exact List.mem_cons_of_mem _ (ih _ h)
            · rw [EventLoop.run] at h
              simp [hall] at h

/-- Witness for C8: a sink that rejects every emission turns a delivered
mapped button press into an immediate sink-error abort. -/
theorem c8_loop_termination_witness :
    EventLoop.run MappingEngine.new_hardcoded
        [some (some (InputEvent.button ButtonCode.south true 0))]
        (fun _ => false) = LoopOutcome.sinkError :=
  c8_loop_termination.2.2.1 MappingEngine.new_hardcoded
    (InputEvent.button ButtonCode.south true 0) [] (fun _ => false) (by decide)

/-- C9: Sync events and non-D-pad axis events emit nothing and leave the
whole engine state (rules and axis states) unchanged. -/
theorem c9_unmapped_silent (eng : MappingEngine) (code : AxisCode)
    (v t u : Int) :
    eng.process (InputEvent.sync u) = ([], eng) ∧
    (code ≠ AxisCode.dPadX → code ≠ AxisCode.dPadY →
      eng.process (InputEvent.axis code v t) = ([], eng)) := by
  refine ⟨rfl, fun h1 h2 => ?_⟩
  simp [MappingEngine.process, MappingEngine.process_axis, h1, h2]

/-- Witness for C9: a LeftX axis event on the hardcoded engine emits nothing
and returns the engine unchanged. -/
theorem c9_unmapped_silent_witness :
    MappingEngine.new_hardcoded.process (InputEvent.axis AxisCode.leftX 100 0) =
      ([], MappingEngine.new_hardcoded) :=
  (c9_unmapped_silent MappingEngine.new_hardcoded AxisCode.leftX 100 0 0).2
    (by decide) (by decide)

/-- C10: D-pad processing depends only on the direction (sign) of the stored
and new values, never on magnitudes, and the deadzone predicate is never
applied: two events with same-sign values from same-sign states emit
identical lists, and a value inside the center-128 deadzone band still
activates (presses) its direction. -/
theorem c10_sign_only (button_rules : ButtonCode → Option KeyboardCode)
    (axis_rules : AxisCode × AxisDirection → Option KeyboardCode)
    (s s' : AxisCode → Option Int) (code : AxisCode) (v v' t t' : Int)
    (hc : code = AxisCode.dPadX ∨ code = AxisCode.dPadY)
    (hold : MappingEngine.value_to_direction ((s code).getD 0) =
      MappingEngine.value_to_direction ((s' code).getD 0))
    (hnew : MappingEngine.value_to_direction v =
      MappingEngine.value_to_direction v') :
    ((MappingEngine.mk button_rules axis_rules s).process
        (InputEvent.axis code v t)).1 =
      ((MappingEngine.mk button_rules axis_rules s').process
        (InputEvent.axis code v' t')).1 ∧
    (∀ (eng : MappingEngine) (w : Int) (d : AxisDirection) (k : KeyboardCode),
        InputEvent.is_in_deadzone (InputEvent.axis code w t) = true →
        MappingEngine.value_to_direction ((eng.axis_states code).getD 0) ≠
          MappingEngine.value_to_direction w →
        MappingEngine.value_to_direction w = some d →
        eng.axis_rules (code, d) = some k →
        OutputEvent.keyboard k KeyboardEventType.press ∈
          (eng.process (InputEvent.axis code w t)).1) := by
  constructor
  · rw [process_dpad_eq _ code v t hc, process_dpad_eq _ code v' t' hc]
    dsimp only
    rw [hold, hnew]
  · intro eng w d k _hdz hne hd hk
    rw [process_dpad_eq eng code w t hc]
    exact dpadDelta_press_mem _ _ _ _ _ _ hne hd hk

/-- Witness for C10: DPadY = 1 from an empty state and DPadY = 134 (a value
inside the center-128 deadzone band) from an explicitly stored 0 emit the
same events. -/
theorem c10_sign_only_witness :
    ((MappingEngine.mk MappingEngine.new_hardcoded.button_rules
        MappingEngine.new_hardcoded.axis_rules (fun _ => none)).process
      (InputEvent.axis AxisCode.dPadY 1 0)).1 =
    ((MappingEngine.mk MappingEngine.new_hardcoded.button_rules
        MappingEngine.new_hardcoded.axis_rules
        (fun c => if c = AxisCode.dPadY then some 0 else none)).process
      (InputEvent.axis AxisCode.dPadY 134 5)).1 :=
  (c10_sign_only MappingEngine.new_hardcoded.button_rules
      MappingEngine.new_hardcoded.axis_rules (fun _ => none)
      (fun c => if c = AxisCode.dPadY then some 0 else none)
      AxisCode.dPadY 1 134 0 5 (Or.inr rfl) (by decide) (by decide)).1

end Blazeremap
